import Mathlib

/-!
Shallow embedding of the SafeCircle payment relay (src/server.js) and proofs
about its two request handlers.

Modelling conventions:
* JSON values are the inductive `Jv`; a missing object property is
  `Jv.jundefined` (JavaScript property access on a non-object yields
  `undefined`, and access on `null`/`undefined` throws, which the embedding
  routes to the catch-block response).
* Request-body fields (`from_payer`, `amount`, `transaction_id`) are
  `Option String`, matching the spec data model (absent or a string); JS
  truthiness of such a field is `optTruthy` (absent and `""` are falsy).
* `parseFloat` is modelled with exact rational arithmetic over finite decimal
  literals with optional exponent; the `Infinity` literal and double-precision
  rounding/overflow are outside the modelled domain.
* `numToString` models `Number.prototype.toString` on finite values with a
  terminating decimal expansion: integer values print with no fractional part
  and trailing fractional zeros are dropped (exponent notation for extreme
  magnitudes is outside the modelled domain).
* An HTTP provider response is `ProviderResponse`: status code, optional
  content-type header, and the parsed JSON body (meaningful only when the
  content type is JSON; a JSON parse failure is outside the model).
* A handler outcome is `HandlerResult`: the HTTP status, the JSON response
  body, and `sentForm`, which is `some form` exactly when the handler issued
  the outbound provider call with form payload `form`, and `none` when no
  outbound call was made.
-/

/-- JSON/JavaScript values as accessed by the relay handlers. -/
inductive Jv where
  | jundefined : Jv
  | jnull : Jv
  | jbool : Bool → Jv
  | jnum : Rat → Jv
  | jstr : String → Jv
  | jobj : List (String × Jv) → Jv

/-- JavaScript truthiness of a value (`undefined`, `null`, `false`, `0` and
`""` are falsy; objects are always truthy). -/
def truthy : Jv → Bool
  | Jv.jundefined => false
  | Jv.jnull => false
  | Jv.jbool b => b
  | Jv.jnum q => if q = 0 then false else true
  | Jv.jstr s => if s = "" then false else true
  | Jv.jobj _ => true

/-- Test for the JS value `null`, on which property access throws. -/
def isNullJv : Jv → Bool
  | Jv.jnull => true
  | _ => false

/-- Property access `v[k]` on a value known not to be `null`/`undefined`:
yields the property of an object (first binding wins) and `undefined`
otherwise. -/
def getField : Jv → String → Jv
  | Jv.jobj fs, k => match fs.lookup k with
    | some v => v
    | none => Jv.jundefined
  | _, _ => Jv.jundefined

/-- Truthiness of an optional string, as JS sees a destructured body field:
absent (`undefined`) and the empty string are falsy. -/
def optTruthy : Option String → Bool
  | none => false
  | some s => if s = "" then false else true

/-- Characters skipped by `parseFloat` before the numeric literal. -/
def isWs (c : Char) : Bool :=
  c = ' ' || c = '\t' || c = '\n' || c = '\r' || c = '\x0b' || c = '\x0c'

/-- Numeric value of a decimal digit character. -/
def digVal (c : Char) : Nat := c.toNat - '0'.toNat

/-- Value of a list of decimal digit characters, most significant first. -/
def natOfDigits (ds : List Char) : Nat := ds.foldl (fun a c => a * 10 + digVal c) 0

/-- Does the pattern occur at the head of the text? -/
def leadsWith : List Char → List Char → Bool
  | [], _ => true
  | _ :: _, [] => false
  | p :: ps, c :: cs => p = c && leadsWith ps cs

/-- Does the pattern occur anywhere in the text? -/
def hasSub (pat : List Char) : List Char → Bool
  | [] => pat.isEmpty
  | c :: cs => leadsWith pat (c :: cs) || hasSub pat cs

/-- Longest digit-string prefix of the exponent part after `e`/`E`, with its
optional sign; an exponent with no digits contributes 0 (JS backtracks to the
mantissa alone). -/
def expAfterE (cs : List Char) : Int :=
  match cs with
  | [] => 0
  | c :: rest =>
    if c = '+' then
      let ds := rest.takeWhile Char.isDigit
      if ds.isEmpty then 0 else (natOfDigits ds : Int)
    else if c = '-' then
      let ds := rest.takeWhile Char.isDigit
      if ds.isEmpty then 0 else -(natOfDigits ds : Int)
    else
      let ds := (c :: rest).takeWhile Char.isDigit
      if ds.isEmpty then 0 else (natOfDigits ds : Int)

/-- Exponent contributed by the remainder of the input after the mantissa. -/
def expPart (cs : List Char) : Int :=
  match cs with
  | c :: rest => if c = 'e' || c = 'E' then expAfterE rest else 0
  | [] => 0

/-- Parse the unsigned mantissa `digits [. digits]` at the head of the input,
returning its digit value, the number of fractional digits, and the remaining
characters; fails when no digit is present. -/
def parseMantissa (cs : List Char) : Option (Nat × Nat × List Char) :=
  let ip := cs.takeWhile Char.isDigit
  let rest := cs.dropWhile Char.isDigit
  match rest with
  | c :: rest2 =>
    if c = '.' then
      let fp := rest2.takeWhile Char.isDigit
      let rest3 := rest2.dropWhile Char.isDigit
      if ip.isEmpty && fp.isEmpty then none
      else some (natOfDigits (ip ++ fp), fp.length, rest3)
    else if ip.isEmpty then none else some (natOfDigits ip, 0, rest)
  | [] => if ip.isEmpty then none else some (natOfDigits ip, 0, [])

/-- Exact value `± n / 10 ^ f * 10 ^ e` of a sign, mantissa digit value `n`
with `f` fractional digits, and decimal exponent `e`. -/
def floatOfParts (neg : Bool) (n f : Nat) (e : Int) : Rat :=
  let m : Int := if neg then -(n : Int) else (n : Int)
  if (f : Int) ≤ e then mkRat (m * ((10 ^ (e - (f : Int)).toNat : Nat) : Int)) 1
  else mkRat m (10 ^ ((f : Int) - e).toNat)

/-- Model of JS `parseFloat`: skip leading whitespace, optional sign, longest
valid decimal-literal prefix (`digits [. digits] [e [sign] digits]`), ignore
trailing garbage; `none` models `NaN`. -/
def parseFloat (s : String) : Option Rat :=
  let cs := s.toList.dropWhile isWs
  match cs with
  | [] => none
  | c :: rest =>
    if c = '-' then (parseMantissa rest).map (fun p => floatOfParts true p.1 p.2.1 (expPart p.2.2))
    else if c = '+' then (parseMantissa rest).map (fun p => floatOfParts false p.1 p.2.1 (expPart p.2.2))
    else (parseMantissa cs).map (fun p => floatOfParts false p.1 p.2.1 (expPart p.2.2))

/-- Drop trailing zero characters. -/
def stripZeros (cs : List Char) : List Char :=
  (cs.reverse.dropWhile (fun c => c = '0')).reverse

/-- Left-pad a digit list with zeros to width `k`. -/
def padZeros (cs : List Char) (k : Nat) : List Char :=
  List.replicate (k - cs.length) '0' ++ cs

/-- Smallest exponent `k` with `den ∣ 10 ^ k`, when one exists below the
double-precision magnitude bound. -/
def decExp (den : Nat) : Option Nat :=
  (List.range 310).find? (fun k => 10 ^ k % den == 0)

/-- Decimal string of the nonnegative fraction `n / den` with terminating
decimal expansion: integer part, then the exact fractional digits with
trailing zeros removed (no fractional part at all for integers). -/
def decDigits (n den : Nat) : String :=
  match decExp den with
  | none => toString n ++ "/" ++ toString den
  | some k =>
    let scaled := n * 10 ^ k / den
    let ip := scaled / 10 ^ k
    let fr := scaled % 10 ^ k
    if fr = 0 then toString ip
    else toString ip ++ "." ++ String.mk (stripZeros (padZeros (toString fr).toList k))

/-- Model of `Number.prototype.toString` on the values `parseFloat` produces:
sign followed by the shortest exact decimal expansion. -/
def numToString (q : Rat) : String :=
  if q.num < 0 then "-" ++ decDigits q.num.natAbs q.den else decDigits q.num.natAbs q.den

/-- The regex test `/^\d{10}$/.test s`: exactly ten ASCII decimal digits. -/
def isTenDigits (s : String) : Bool :=
  s.length == 10 && s.toList.all Char.isDigit

/-- `haystack.includes needle` for strings. -/
def containsSub (s pat : String) : Bool := hasSub pat.toList s.toList

/-- The guard `contentType && contentType.includes("application/json")` on the
provider response content-type header. -/
def jsonCT : Option String → Bool
  | none => false
  | some ct => if ct = "" then false else containsSub ct "application/json"

/-- A provider HTTP response as the handlers observe it: status code, optional
content-type header, and parsed JSON body. -/
structure ProviderResponse where
  status : Nat
  contentType : Option String
  body : Jv

/-- `response.ok`: HTTP status in the 2xx range. -/
def respOk (r : ProviderResponse) : Bool := 200 ≤ r.status && r.status ≤ 299

/-- Outcome of one handler invocation: HTTP status, JSON response body, and
the outbound form payload (`none` when the provider was never called). -/
structure HandlerResult where
  status : Nat
  body : Jv
  sentForm : Option (List (String × String))

/-- A `res.status(...).json({isError: true, message})` error envelope. -/
def errBody (m : String) : Jv :=
  Jv.jobj [("isError", Jv.jbool true), ("message", Jv.jstr m)]

/-- Body produced by the catch blocks (src/server.js lines 146-150 and
224-228): fixed message, and the exception detail in `error` only when
`NODE_ENV === "development"`. -/
def catchBody (env : Option String) (emsg : String) : Jv :=
  Jv.jobj [("isError", Jv.jbool true), ("message", Jv.jstr "Internal server error"),
    ("error", Jv.jstr (if env = some "development" then emsg else "An error occurred"))]

/-- Form payload built by the create handler (src/server.js lines 98-102). -/
def createFormData (fp : String) (q : Rat) (aid : String) : List (String × String) :=
  [("from_payer", fp), ("amount", numToString q), ("auth_id", aid), ("webhook_url", "")]

/-- POST /create-mobile-money-payment (src/server.js lines 51-152): validate
`from_payer` and `amount`, check the auth secret, call the provider, translate
its response; throws inside the try (non-JSON content type, property access on
a `null` body, `data.data.transaction_id` on a missing `data`) land in the
catch block. -/
def createHandler (authId env : Option String) (from_payer amount : Option String)
    (resp : ProviderResponse) : HandlerResult :=
  if !(optTruthy from_payer && optTruthy amount) then
    { status := 400, body := errBody "Missing required fields: from_payer or amount",
      sentForm := none }
  else
    let fp := from_payer.getD ""
    let am := amount.getD ""
    if !isTenDigits fp then
      { status := 400,
        body := errBody "Invalid phone number format. Must be 10 digits (e.g., 0971234567)",
        sentForm := none }
    else
      match parseFloat am with
      | none =>
        { status := 400, body := errBody "Invalid amount. Must be a positive number.",
          sentForm := none }
      | some q =>
        if q ≤ 0 then
          { status := 400, body := errBody "Invalid amount. Must be a positive number.",
            sentForm := none }
        else if !optTruthy authId then
          { status := 500,
            body := errBody "Payment service not configured. Please contact support.",
            sentForm := none }
        else
          let form := createFormData fp q (authId.getD "")
          if !jsonCT resp.contentType then
            { status := 500, body := catchBody env "Invalid response from payment provider",
              sentForm := some form }
          else if isNullJv resp.body then
            { status := 500,
              body := catchBody env "Cannot read properties of null (reading isError)",
              sentForm := some form }
          else if truthy (getField resp.body "isError") || !respOk resp then
            let m := getField resp.body "message"
            { status := 400,
              body := Jv.jobj [("isError", Jv.jbool true),
                ("message", if truthy m then m else Jv.jstr "Payment initiation failed")],
              sentForm := some form }
          else
            match getField resp.body "data" with
            | Jv.jundefined =>
              { status := 500,
                body := catchBody env "Cannot read properties of undefined (reading transaction_id)",
                sentForm := some form }
            | Jv.jnull =>
              { status := 500,
                body := catchBody env "Cannot read properties of null (reading transaction_id)",
                sentForm := some form }
            | d =>
              { status := 200,
                body := Jv.jobj [("isError", Jv.jbool false),
                  ("message", getField resp.body "message"), ("data", d)],
                sentForm := some form }

/-- Form payload built by the verify handler (src/server.js lines 183-185). -/
def verifyFormData (aid tid : String) : List (String × String) :=
  [("auth_id", aid), ("transaction_id", tid)]

/-- POST /verify-mobile-money-payment (src/server.js lines 159-230): validate
`transaction_id`, check the auth secret, call the provider, and pass any JSON
body through as a success envelope (a `null` body throws at the
`data.data?.status` log and lands in the catch block). -/
def verifyHandler (authId env : Option String) (transaction_id : Option String)
    (resp : ProviderResponse) : HandlerResult :=
  if !optTruthy transaction_id then
    { status := 400, body := errBody "Missing required field: transaction_id",
      sentForm := none }
  else if !optTruthy authId then
    { status := 500, body := errBody "Payment service not configured. Please contact support.",
      sentForm := none }
  else
    let form := verifyFormData (authId.getD "") (transaction_id.getD "")
    if !jsonCT resp.contentType then
      { status := 500, body := catchBody env "Invalid response from payment provider",
        sentForm := some form }
    else if isNullJv resp.body then
      { status := 500, body := catchBody env "Cannot read properties of null (reading data)",
        sentForm := some form }
    else
      { status := 200,
        body := Jv.jobj [("isError", Jv.jbool false),
          ("message", getField resp.body "message"), ("data", getField resp.body "data")],
        sentForm := some form }

/-- Field lookup in an error envelope: the flag. -/
theorem getField_errBody_isError (m : String) :
    getField (errBody m) "isError" = Jv.jbool true := rfl

/-- Field lookup in an error envelope: the message. -/
theorem getField_errBody_message (m : String) :
    getField (errBody m) "message" = Jv.jstr m := rfl

/-- Field lookup in a catch-block body: the flag. -/
theorem getField_catchBody_isError (env : Option String) (e : String) :
    getField (catchBody env e) "isError" = Jv.jbool true := rfl

/-- Field lookup in a catch-block body: the fixed message. -/
theorem getField_catchBody_message (env : Option String) (e : String) :
    getField (catchBody env e) "message" = Jv.jstr "Internal server error" := rfl

/-- Field lookup in a catch-block body: the environment-gated detail. -/
theorem getField_catchBody_error (env : Option String) (e : String) :
    getField (catchBody env e) "error"
      = Jv.jstr (if env = some "development" then e else "An error occurred") := rfl

/-- Truthiness of a present nonempty field. -/
theorem optTruthy_some (s : String) (h : s ≠ "") : optTruthy (some s) = true := by
  simp [optTruthy, h]

/-- Create handler, missing-fields branch (src/server.js lines 61-67). -/
theorem create_missing (authId env : Option String) (fp am : Option String)
    (resp : ProviderResponse) (h : (optTruthy fp && optTruthy am) = false) :
    createHandler authId env fp am resp
      = ⟨400, errBody "Missing required fields: from_payer or amount", none⟩ := by
  unfold createHandler
  simp [h]

/-- Create handler, phone-format branch (src/server.js lines 70-76). -/
theorem create_badPhone (authId env : Option String) (fp : String) (am : Option String)
    (resp : ProviderResponse) (hfp : fp ≠ "") (ham : optTruthy am = true)
    (h10 : isTenDigits fp = false) :
    createHandler authId env (some fp) am resp
      = ⟨400, errBody "Invalid phone number format. Must be 10 digits (e.g., 0971234567)",
          none⟩ := by
  unfold createHandler
  simp [optTruthy_some fp hfp, ham, h10]

/-- Create handler, amount branch (src/server.js lines 79-86): non-parsing or
nonpositive amounts are rejected. -/
theorem create_badAmount (authId env : Option String) (fp am : String)
    (resp : ProviderResponse) (hfp : fp ≠ "") (ham : am ≠ "")
    (h10 : isTenDigits fp = true) (hq : ∀ q, parseFloat am = some q → q ≤ 0) :
    createHandler authId env (some fp) (some am) resp
      = ⟨400, errBody "Invalid amount. Must be a positive number.", none⟩ := by
  unfold createHandler
  cases hp : parseFloat am with
  | none => simp [optTruthy_some fp hfp, optTruthy_some am ham, h10, hp]
  | some q => simp [optTruthy_some fp hfp, optTruthy_some am ham, h10, hp, hq q hp]

/-- Create handler, configuration branch (src/server.js lines 89-95). -/
theorem create_config (authId env : Option String) (fp am : String) (q : Rat)
    (resp : ProviderResponse) (hfp : fp ≠ "") (ham : am ≠ "")
    (h10 : isTenDigits fp = true) (hp : parseFloat am = some q) (hq : 0 < q)
    (hauth : optTruthy authId = false) :
    createHandler authId env (some fp) (some am) resp
      = ⟨500, errBody "Payment service not configured. Please contact support.", none⟩ := by
  unfold createHandler
  simp [optTruthy_some fp hfp, optTruthy_some am ham, h10, hp, not_le.mpr hq, hauth]

/-- Create handler, non-JSON provider response (src/server.js lines 116-125
and the catch block): the thrown error lands in the catch. -/
theorem create_nonJson (authId env : Option String) (fp am : String) (q : Rat)
    (resp : ProviderResponse) (hfp : fp ≠ "") (ham : am ≠ "")
    (h10 : isTenDigits fp = true) (hp : parseFloat am = some q) (hq : 0 < q)
    (hauth : optTruthy authId = true) (hct : jsonCT resp.contentType = false) :
    createHandler authId env (some fp) (some am) resp
      = ⟨500, catchBody env "Invalid response from payment provider",
          some (createFormData fp q (authId.getD ""))⟩ := by
  unfold createHandler
  simp [optTruthy_some fp hfp, optTruthy_some am ham, h10, hp, not_le.mpr hq, hauth, hct]

/-- Create handler, provider-error branch (src/server.js lines 127-133). -/
theorem create_providerError (authId env : Option String) (fp am : String) (q : Rat)
    (resp : ProviderResponse) (hfp : fp ≠ "") (ham : am ≠ "")
    (h10 : isTenDigits fp = true) (hp : parseFloat am = some q) (hq : 0 < q)
    (hauth : optTruthy authId = true) (hct : jsonCT resp.contentType = true)
    (hnn : isNullJv resp.body = false)
    (herr : (truthy (getField resp.body "isError") || !respOk resp) = true) :
    createHandler authId env (some fp) (some am) resp
      = ⟨400, Jv.jobj [("isError", Jv.jbool true),
          ("message", if truthy (getField resp.body "message")
            then getField resp.body "message" else Jv.jstr "Payment initiation failed")],
          some (createFormData fp q (authId.getD ""))⟩ := by
  unfold createHandler
  simp only [optTruthy_some fp hfp, optTruthy_some am ham, h10, hp, not_le.mpr hq, hauth,
    hct, hnn, herr, Bool.and_true, Bool.not_true, Bool.false_eq_true, if_false, if_neg,
    not_false_eq_true, Option.getD_some]
  simp [herr]

/-- Create handler, missing `data` in a success response (src/server.js line
135 and the catch block): `data.data.transaction_id` throws. -/
theorem create_noData (authId env : Option String) (fp am : String) (q : Rat)
    (resp : ProviderResponse) (hfp : fp ≠ "") (ham : am ≠ "")
    (h10 : isTenDigits fp = true) (hp : parseFloat am = some q) (hq : 0 < q)
    (hauth : optTruthy authId = true) (hct : jsonCT resp.contentType = true)
    (hnn : isNullJv resp.body = false)
    (herr : truthy (getField resp.body "isError") = false) (hok : respOk resp = true)
    (hd : getField resp.body "data" = Jv.jundefined) :
    createHandler authId env (some fp) (some am) resp
      = ⟨500, catchBody env "Cannot read properties of undefined (reading transaction_id)",
          some (createFormData fp q (authId.getD ""))⟩ := by
  unfold createHandler
  simp [optTruthy_some fp hfp, optTruthy_some am ham, h10, hp, not_le.mpr hq, hauth,
    hct, hnn, herr, hok, hd]

/-- Create handler, `null` JSON body (src/server.js line 127 and the catch
block): `data.isError` throws on a null response body. -/
theorem create_nullBody (authId env : Option String) (fp am : String) (q : Rat)
    (resp : ProviderResponse) (hfp : fp ≠ "") (ham : am ≠ "")
    (h10 : isTenDigits fp = true) (hp : parseFloat am = some q) (hq : 0 < q)
    (hauth : optTruthy authId = true) (hct : jsonCT resp.contentType = true)
    (hnn : isNullJv resp.body = true) :
    createHandler authId env (some fp) (some am) resp
      = ⟨500, catchBody env "Cannot read properties of null (reading isError)",
          some (createFormData fp q (authId.getD ""))⟩ := by
  unfold createHandler
  simp [optTruthy_some fp hfp, optTruthy_some am ham, h10, hp, not_le.mpr hq, hauth,
    hct, hnn]

/-- Create handler, `null` `data` in a success response (src/server.js line
135 and the catch block): `data.data.transaction_id` throws. -/
theorem create_dataNull (authId env : Option String) (fp am : String) (q : Rat)
    (resp : ProviderResponse) (hfp : fp ≠ "") (ham : am ≠ "")
    (h10 : isTenDigits fp = true) (hp : parseFloat am = some q) (hq : 0 < q)
    (hauth : optTruthy authId = true) (hct : jsonCT resp.contentType = true)
    (hnn : isNullJv resp.body = false)
    (herr : truthy (getField resp.body "isError") = false) (hok : respOk resp = true)
    (hd : getField resp.body "data" = Jv.jnull) :
    createHandler authId env (some fp) (some am) resp
      = ⟨500, catchBody env "Cannot read properties of null (reading transaction_id)",
          some (createFormData fp q (authId.getD ""))⟩ := by
  unfold createHandler
  simp [optTruthy_some fp hfp, optTruthy_some am ham, h10, hp, not_le.mpr hq, hauth,
    hct, hnn, herr, hok, hd]

/-- Create handler, success passthrough (src/server.js lines 135-142). -/
theorem create_success (authId env : Option String) (fp am : String) (q : Rat)
    (resp : ProviderResponse) (d : Jv) (hfp : fp ≠ "") (ham : am ≠ "")
    (h10 : isTenDigits fp = true) (hp : parseFloat am = some q) (hq : 0 < q)
    (hauth : optTruthy authId = true) (hct : jsonCT resp.contentType = true)
    (herr : truthy (getField resp.body "isError") = false) (hok : respOk resp = true)
    (hd : getField resp.body "data" = d) (hdu : d ≠ Jv.jundefined) (hdn : d ≠ Jv.jnull) :
    createHandler authId env (some fp) (some am) resp
      = ⟨200, Jv.jobj [("isError", Jv.jbool false),
          ("message", getField resp.body "message"), ("data", d)],
          some (createFormData fp q (authId.getD ""))⟩ := by
  have hnn : isNullJv resp.body = false := by
    cases hb : resp.body <;> simp_all [isNullJv, getField]
  unfold createHandler
  simp only [optTruthy_some fp hfp, optTruthy_some am ham, h10, hp, not_le.mpr hq, hauth,
    hct, hnn, herr, hok, hd, Option.getD_some]
  cases d <;> simp_all

/-- Verify handler, missing-field branch (src/server.js lines 165-171). -/
theorem verify_missing (authId env : Option String) (tid : Option String)
    (resp : ProviderResponse) (h : optTruthy tid = false) :
    verifyHandler authId env tid resp
      = ⟨400, errBody "Missing required field: transaction_id", none⟩ := by
  unfold verifyHandler
  simp [h]

/-- Verify handler, configuration branch (src/server.js lines 174-180). -/
theorem verify_config (authId env : Option String) (tid : String)
    (resp : ProviderResponse) (htid : tid ≠ "") (hauth : optTruthy authId = false) :
    verifyHandler authId env (some tid) resp
      = ⟨500, errBody "Payment service not configured. Please contact support.", none⟩ := by
  unfold verifyHandler
  simp [optTruthy_some tid htid, hauth]

/-- Verify handler, non-JSON provider response (src/server.js lines 199-208
and the catch block). -/
theorem verify_nonJson (authId env : Option String) (tid : String)
    (resp : ProviderResponse) (htid : tid ≠ "") (hauth : optTruthy authId = true)
    (hct : jsonCT resp.contentType = false) :
    verifyHandler authId env (some tid) resp
      = ⟨500, catchBody env "Invalid response from payment provider",
          some (verifyFormData (authId.getD "") tid)⟩ := by
  unfold verifyHandler
  simp [optTruthy_some tid htid, hauth, hct]

/-- Verify handler, `null` JSON body (src/server.js line 212 and the catch
block): `data.data` throws on a null response body. -/
theorem verify_nullBody (authId env : Option String) (tid : String)
    (resp : ProviderResponse) (htid : tid ≠ "") (hauth : optTruthy authId = true)
    (hct : jsonCT resp.contentType = true) (hnn : isNullJv resp.body = true) :
    verifyHandler authId env (some tid) resp
      = ⟨500, catchBody env "Cannot read properties of null (reading data)",
          some (verifyFormData (authId.getD "") tid)⟩ := by
  unfold verifyHandler
  simp [optTruthy_some tid htid, hauth, hct, hnn]

/-- Verify handler, passthrough of any non-null JSON body regardless of its
contents or the HTTP status (src/server.js lines 216-220). -/
theorem verify_success (authId env : Option String) (tid : String)
    (resp : ProviderResponse) (htid : tid ≠ "") (hauth : optTruthy authId = true)
    (hct : jsonCT resp.contentType = true) (hnn : isNullJv resp.body = false) :
    verifyHandler authId env (some tid) resp
      = ⟨200, Jv.jobj [("isError", Jv.jbool false),
          ("message", getField resp.body "message"), ("data", getField resp.body "data")],
          some (verifyFormData (authId.getD "") tid)⟩ := by
  unfold verifyHandler
  simp [optTruthy_some tid htid, hauth, hct, hnn]

example : parseFloat "50.00" = some 50 := rfl
example : parseFloat "0971234567" = some 971234567 := rfl
example : parseFloat "abc" = none := rfl
example : parseFloat "  -2.5e1x" = some (mkRat (-25) 1) := rfl
example : parseFloat ".5" = some (mkRat 1 2) := rfl
example : parseFloat "" = none := rfl
example : numToString (mkRat 50 1) = "50" := rfl
example : numToString (mkRat 1 4) = "0.25" := rfl
example : isTenDigits "0971234567" = true := rfl
example : isTenDigits "12345" = false := rfl
example : jsonCT (some "application/json; charset=utf-8") = true := rfl
example : jsonCT (some "text/html") = false := rfl

/-- C2: for every InitiatePayment request whose `from_payer` is present and
truthy but is not exactly 10 ASCII digits, the handler returns HTTP 400 with
an `{isError: true, message}` envelope and never issues the outbound provider
call, whatever the other inputs and whatever the provider would have
answered. -/
theorem C2_badPhone_validation (authId env : Option String) (fp : String)
    (amount : Option String) (resp : ProviderResponse)
    (hfp : fp ≠ "") (h10 : isTenDigits fp = false) :
    (createHandler authId env (some fp) amount resp).status = 400 ∧
    getField (createHandler authId env (some fp) amount resp).body "isError" = Jv.jbool true ∧
    (∃ m, getField (createHandler authId env (some fp) amount resp).body "message" = Jv.jstr m) ∧
    (createHandler authId env (some fp) amount resp).sentForm = none := by
  cases ham : optTruthy amount with
  | false =>
    rw [create_missing authId env (some fp) amount resp (by simp [ham])]
    exact ⟨rfl, getField_errBody_isError _, ⟨_, getField_errBody_message _⟩, rfl⟩
  | true =>
    rw [create_badPhone authId env fp amount resp hfp ham h10]
    exact ⟨rfl, getField_errBody_isError _, ⟨_, getField_errBody_message _⟩, rfl⟩

/-- C2 witness: a 5-digit `from_payer` with a well-formed amount is rejected
with HTTP 400 and no provider call. -/
theorem C2_badPhone_validation_witness :
    (createHandler (some "A") none (some "12345") (some "50.00")
        ⟨200, some "application/json", Jv.jobj []⟩).status = 400 ∧
    getField (createHandler (some "A") none (some "12345") (some "50.00")
        ⟨200, some "application/json", Jv.jobj []⟩).body "isError" = Jv.jbool true ∧
    (∃ m, getField (createHandler (some "A") none (some "12345") (some "50.00")
        ⟨200, some "application/json", Jv.jobj []⟩).body "message" = Jv.jstr m) ∧
    (createHandler (some "A") none (some "12345") (some "50.00")
        ⟨200, some "application/json", Jv.jobj []⟩).sentForm = none :=
  C2_badPhone_validation (some "A") none "12345" (some "50.00")
    ⟨200, some "application/json", Jv.jobj []⟩ (by decide) (by decide)

/-- C5: with the provider secret unset (absent or empty), a create request
that passes input validation and any verify request with a `transaction_id`
both get the fixed configuration-error envelope with HTTP 500, and no
outbound call is recorded. -/
theorem C5_configError (authId env : Option String) (fp am tid : String) (q : Rat)
    (resp resq : ProviderResponse) (hauth : optTruthy authId = false) :
    (fp ≠ "" → am ≠ "" → isTenDigits fp = true → parseFloat am = some q → 0 < q →
      createHandler authId env (some fp) (some am) resp
        = ⟨500, errBody "Payment service not configured. Please contact support.", none⟩) ∧
    (tid ≠ "" →
      verifyHandler authId env (some tid) resq
        = ⟨500, errBody "Payment service not configured. Please contact support.", none⟩) := by
  constructor
  · intro hfp ham h10 hp hq
    exact create_config authId env fp am q resp hfp ham h10 hp hq hauth
  · intro htid
    exact verify_config authId env tid resq htid hauth

/-- C5 witness: with no secret configured, the spec scenario inputs produce
the configuration-error envelope on both endpoints with no outbound call. -/
theorem C5_configError_witness :
    createHandler none none (some "0971234567") (some "50.00")
        ⟨200, some "application/json", Jv.jobj []⟩
      = ⟨500, errBody "Payment service not configured. Please contact support.", none⟩ ∧
    verifyHandler none none (some "T1") ⟨200, some "application/json", Jv.jobj []⟩
      = ⟨500, errBody "Payment service not configured. Please contact support.", none⟩ :=
  ⟨(C5_configError none none "0971234567" "50.00" "T1" (mkRat 50 1)
      ⟨200, some "application/json", Jv.jobj []⟩ ⟨200, some "application/json", Jv.jobj []⟩
      rfl).1 (by decide) (by decide) (by decide) rfl (by decide),
   (C5_configError none none "0971234567" "50.00" "T1" (mkRat 50 1)
      ⟨200, some "application/json", Jv.jobj []⟩ ⟨200, some "application/json", Jv.jobj []⟩
      rfl).2 (by decide)⟩

/-- C8: whenever `from_payer` and `amount` are present and the amount string
either does not parse (`parseFloat` yields `NaN`) or parses to a value ≤ 0,
the create handler returns HTTP 400 with an `{isError: true, message}`
envelope and never calls the provider. -/
theorem C8_badAmount_validation (authId env : Option String) (fp am : String)
    (resp : ProviderResponse) (hq : ∀ q, parseFloat am = some q → q ≤ 0) :
    (createHandler authId env (some fp) (some am) resp).status = 400 ∧
    getField (createHandler authId env (some fp) (some am) resp).body "isError"
      = Jv.jbool true ∧
    (∃ m, getField (createHandler authId env (some fp) (some am) resp).body "message"
      = Jv.jstr m) ∧
    (createHandler authId env (some fp) (some am) resp).sentForm = none := by
  by_cases hfp : fp = ""
  · rw [create_missing authId env (some fp) (some am) resp (by simp [optTruthy, hfp])]
    exact ⟨rfl, getField_errBody_isError _, ⟨_, getField_errBody_message _⟩, rfl⟩
  · by_cases ham : am = ""
    · rw [create_missing authId env (some fp) (some am) resp (by simp [optTruthy, ham])]
      exact ⟨rfl, getField_errBody_isError _, ⟨_, getField_errBody_message _⟩, rfl⟩
    · cases h10 : isTenDigits fp with
      | false =>
        rw [create_badPhone authId env fp (some am) resp hfp (optTruthy_some am ham) h10]
        exact ⟨rfl, getField_errBody_isError _, ⟨_, getField_errBody_message _⟩, rfl⟩
      | true =>
        rw [create_badAmount authId env fp am resp hfp ham h10 hq]
        exact ⟨rfl, getField_errBody_isError _, ⟨_, getField_errBody_message _⟩, rfl⟩

/-- C8 witness: a zero amount is rejected with HTTP 400 and no provider
call. -/
theorem C8_badAmount_validation_witness :
    (createHandler (some "A") none (some "0971234567") (some "0")
        ⟨200, some "application/json", Jv.jobj []⟩).status = 400 ∧
    getField (createHandler (some "A") none (some "0971234567") (some "0")
        ⟨200, some "application/json", Jv.jobj []⟩).body "isError" = Jv.jbool true ∧
    (∃ m, getField (createHandler (some "A") none (some "0971234567") (some "0")
        ⟨200, some "application/json", Jv.jobj []⟩).body "message" = Jv.jstr m) ∧
    (createHandler (some "A") none (some "0971234567") (some "0")
        ⟨200, some "application/json", Jv.jobj []⟩).sentForm = none :=
  C8_badAmount_validation (some "A") none "0971234567" "0"
    ⟨200, some "application/json", Jv.jobj []⟩
    (fun q hq => by
      rw [show parseFloat "0" = some (mkRat 0 1) from rfl] at hq
      cases hq
      decide)

/-- C9: the catch-block response body used by both handlers is independent of
the exception message except when `NODE_ENV` is `development` (a
non-production deployment): in production the body is fixed, any dependence
on the message implies the development flag, the message is echoed in the
`error` field exactly in development, and an echoed message outside
development can only coincide with the generic text. -/
theorem C9_errorDetailGating (env : Option String) (m₁ m₂ : String) :
    (env = some "production" → catchBody env m₁ = catchBody env m₂) ∧
    (catchBody env m₁ ≠ catchBody env m₂ → env = some "development") ∧
    (env = some "development" → getField (catchBody env m₁) "error" = Jv.jstr m₁) ∧
    (getField (catchBody env m₁) "error" = Jv.jstr m₁ →
      m₁ = "An error occurred" ∨ env = some "development") := by
  refine ⟨?_, ?_, ?_, ?_⟩
  · intro hprod
    subst hprod
    simp [catchBody]
  · intro hne
    by_cases hdev : env = some "development"
    · exact hdev
    · exact absurd (by simp [catchBody, hdev]) hne
  · intro hdev
    subst hdev
    simp [getField_catchBody_error]
  · intro hecho
    by_cases hdev : env = some "development"
    · exact Or.inr hdev
    · rw [getField_catchBody_error, if_neg hdev] at hecho
      exact Or.inl (Jv.jstr.inj hecho).symm

/-- C9 witness: in production the catch body is the same for two distinct
exception messages, and in development the message is echoed. -/
theorem C9_errorDetailGating_witness :
    catchBody (some "production") "boom" = catchBody (some "production") "bang" ∧
    getField (catchBody (some "development") "boom") "error" = Jv.jstr "boom" :=
  ⟨(C9_errorDetailGating (some "production") "boom" "bang").1 rfl,
   (C9_errorDetailGating (some "development") "boom" "bang").2.2.1 rfl⟩

/-- C1 counterexample: with `transaction_id` present and the secret set, a
provider response whose JSON body is the literal `null` makes the verify
handler return HTTP 500 with the internal-error envelope, not the claimed
`{isError: false, message, data}` passthrough: `data.data` throws on a null
body. -/
theorem C1_claim_counterexample :
    (verifyHandler (some "A") none (some "T1")
        ⟨200, some "application/json", Jv.jnull⟩).status = 500 ∧
    getField (verifyHandler (some "A") none (some "T1")
        ⟨200, some "application/json", Jv.jnull⟩).body "isError" = Jv.jbool true ∧
    getField (verifyHandler (some "A") none (some "T1")
        ⟨200, some "application/json", Jv.jnull⟩).body "message"
      = Jv.jstr "Internal server error" :=
  ⟨rfl, rfl, rfl⟩

/-- C1 (amended): with `transaction_id` present and the secret set, any JSON
provider response other than the literal `null` body is passed through as
`{isError: false, message, data}` regardless of the HTTP status or any error
indication inside the body; a `null` JSON body instead lands in the catch
block and yields the internal-error envelope with HTTP 500. -/
theorem C1_verify_passthrough (authId env : Option String) (tid : String)
    (resp : ProviderResponse) (hauth : optTruthy authId = true) (htid : tid ≠ "")
    (hct : jsonCT resp.contentType = true) :
    (isNullJv resp.body = false →
      verifyHandler authId env (some tid) resp
        = ⟨200, Jv.jobj [("isError", Jv.jbool false),
            ("message", getField resp.body "message"),
            ("data", getField resp.body "data")],
            some (verifyFormData (authId.getD "") tid)⟩) ∧
    (isNullJv resp.body = true →
      (verifyHandler authId env (some tid) resp).status = 500 ∧
      getField (verifyHandler authId env (some tid) resp).body "message"
        = Jv.jstr "Internal server error") := by
  constructor
  · intro hnn
    exact verify_success authId env tid resp htid hauth hct hnn
  · intro hnn
    rw [verify_nullBody authId env tid resp htid hauth hct hnn]
    exact ⟨rfl, getField_catchBody_message env _⟩

/-- C1 witness: the spec scenario - a body carrying `data.status =
"completed"` (and even an `isError` flag) is passed through unchanged with a
200. -/
theorem C1_verify_passthrough_witness :
    verifyHandler (some "A") none (some "T1")
        ⟨500, some "application/json",
          Jv.jobj [("isError", Jv.jbool true),
            ("data", Jv.jobj [("status", Jv.jstr "completed")])]⟩
      = ⟨200, Jv.jobj [("isError", Jv.jbool false), ("message", Jv.jundefined),
          ("data", Jv.jobj [("status", Jv.jstr "completed")])],
          some [("auth_id", "A"), ("transaction_id", "T1")]⟩ :=
  (C1_verify_passthrough (some "A") none "T1"
      ⟨500, some "application/json",
        Jv.jobj [("isError", Jv.jbool true),
          ("data", Jv.jobj [("status", Jv.jstr "completed")])]⟩
      rfl (by decide) rfl).1 rfl

/-- C4 counterexample: a provider response with JSON content type, HTTP
status 500 (not a success status) and body `null` satisfies the claim's
antecedent, but the create handler returns HTTP 500 with the internal-error
envelope instead of the claimed HTTP 400 provider-error envelope, because
`data.isError` throws on a null body. -/
theorem C4_claim_counterexample :
    (createHandler (some "A") none (some "0971234567") (some "50.00")
        ⟨500, some "application/json", Jv.jnull⟩).status = 500 ∧
    getField (createHandler (some "A") none (some "0971234567") (some "50.00")
        ⟨500, some "application/json", Jv.jnull⟩).body "message"
      = Jv.jstr "Internal server error" :=
  ⟨rfl, rfl⟩

/-- C4 (amended): for a valid create request reaching the provider, a JSON
response whose body is not the literal `null` and either carries a truthy
`isError` flag or arrives with a non-2xx HTTP status is mapped to HTTP 400
with `{isError: true, message}`, where the message is the provider's when
truthy and the fallback "Payment initiation failed" otherwise; a `null` body
instead yields the internal-error envelope. -/
theorem C4_providerError_mapping (authId env : Option String) (fp am : String) (q : Rat)
    (resp : ProviderResponse) (hfp : fp ≠ "") (ham : am ≠ "")
    (h10 : isTenDigits fp = true) (hp : parseFloat am = some q) (hq : 0 < q)
    (hauth : optTruthy authId = true) (hct : jsonCT resp.contentType = true)
    (hnn : isNullJv resp.body = false)
    (herr : (truthy (getField resp.body "isError") || !respOk resp) = true) :
    createHandler authId env (some fp) (some am) resp
      = ⟨400, Jv.jobj [("isError", Jv.jbool true),
          ("message", if truthy (getField resp.body "message")
            then getField resp.body "message" else Jv.jstr "Payment initiation failed")],
          some (createFormData fp q (authId.getD ""))⟩ :=
  create_providerError authId env fp am q resp hfp ham h10 hp hq hauth hct hnn herr

/-- C4 witness: the spec scenario - the provider answers
`{isError: true, message: "X"}` and the relay surfaces
`{isError: true, message: "X"}` with HTTP 400. -/
theorem C4_providerError_mapping_witness :
    createHandler (some "A") none (some "0971234567") (some "50.00")
        ⟨200, some "application/json",
          Jv.jobj [("isError", Jv.jbool true), ("message", Jv.jstr "X")]⟩
      = ⟨400, Jv.jobj [("isError", Jv.jbool true), ("message", Jv.jstr "X")],
          some [("from_payer", "0971234567"), ("amount", "50"), ("auth_id", "A"),
            ("webhook_url", "")]⟩ :=
  C4_providerError_mapping (some "A") none "0971234567" "50.00" (mkRat 50 1)
    ⟨200, some "application/json",
      Jv.jobj [("isError", Jv.jbool true), ("message", Jv.jstr "X")]⟩
    (by decide) (by decide) (by decide) rfl (by decide) rfl rfl rfl rfl

/-- C6: when a request reaches the provider (validation passed, secret set)
and the response content type is not JSON, both handlers return HTTP 500 with
the catch-block body, whose `message` is the fixed "Internal server error" -
the non-JSON response body is never passed through. -/
theorem C6_nonJson_internalError (authId env : Option String) (fp am tid : String)
    (q : Rat) (resp resq : ProviderResponse) (hauth : optTruthy authId = true) :
    (fp ≠ "" → am ≠ "" → isTenDigits fp = true → parseFloat am = some q → 0 < q →
      jsonCT resp.contentType = false →
      createHandler authId env (some fp) (some am) resp
        = ⟨500, catchBody env "Invalid response from payment provider",
            some (createFormData fp q (authId.getD ""))⟩) ∧
    (tid ≠ "" → jsonCT resq.contentType = false →
      verifyHandler authId env (some tid) resq
        = ⟨500, catchBody env "Invalid response from payment provider",
            some (verifyFormData (authId.getD "") tid)⟩) := by
  constructor
  · intro hfp ham h10 hp hq hct
    exact create_nonJson authId env fp am q resp hfp ham h10 hp hq hauth hct
  · intro htid hct
    exact verify_nonJson authId env tid resq htid hauth hct

/-- C6 witness: an HTML provider response yields the internal-error envelope
on both endpoints. -/
theorem C6_nonJson_internalError_witness :
    createHandler (some "A") none (some "0971234567") (some "50.00")
        ⟨200, some "text/html", Jv.jobj []⟩
      = ⟨500, catchBody none "Invalid response from payment provider",
          some [("from_payer", "0971234567"), ("amount", "50"), ("auth_id", "A"),
            ("webhook_url", "")]⟩ ∧
    verifyHandler (some "A") none (some "T1") ⟨200, some "text/html", Jv.jobj []⟩
      = ⟨500, catchBody none "Invalid response from payment provider",
          some [("auth_id", "A"), ("transaction_id", "T1")]⟩ :=
  ⟨(C6_nonJson_internalError (some "A") none "0971234567" "50.00" "T1" (mkRat 50 1)
      ⟨200, some "text/html", Jv.jobj []⟩ ⟨200, some "text/html", Jv.jobj []⟩ rfl).1
      (by decide) (by decide) (by decide) rfl (by decide) rfl,
   (C6_nonJson_internalError (some "A") none "0971234567" "50.00" "T1" (mkRat 50 1)
      ⟨200, some "text/html", Jv.jobj []⟩ ⟨200, some "text/html", Jv.jobj []⟩ rfl).2
      (by decide) rfl⟩

/-- C7: a valid create request (10-digit `from_payer`, positive amount,
secret set) whose provider response is JSON, has no truthy error flag, a 2xx
status, and carries a `data` property that is neither absent nor `null`, is
answered with HTTP 200 and `{isError: false, message, data}`, the provider's
`data` value passed through unmodified. -/
theorem C7_success_passthrough (authId env : Option String) (fp am : String) (q : Rat)
    (resp : ProviderResponse) (d : Jv) (hfp : fp ≠ "") (ham : am ≠ "")
    (h10 : isTenDigits fp = true) (hp : parseFloat am = some q) (hq : 0 < q)
    (hauth : optTruthy authId = true) (hct : jsonCT resp.contentType = true)
    (herr : truthy (getField resp.body "isError") = false) (hok : respOk resp = true)
    (hd : getField resp.body "data" = d) (hdu : d ≠ Jv.jundefined)
    (hdn : d ≠ Jv.jnull) :
    createHandler authId env (some fp) (some am) resp
      = ⟨200, Jv.jobj [("isError", Jv.jbool false),
          ("message", getField resp.body "message"), ("data", d)],
          some (createFormData fp q (authId.getD ""))⟩ :=
  create_success authId env fp am q resp d hfp ham h10 hp hq hauth hct herr hok hd hdu hdn

/-- C7 witness: the spec scenario - provider returns
`{isError: false, message: "ok", data: {transaction_id: "T1"}}` and the relay
returns the same message and data with HTTP 200. -/
theorem C7_success_passthrough_witness :
    createHandler (some "A") none (some "0971234567") (some "50.00")
        ⟨200, some "application/json",
          Jv.jobj [("isError", Jv.jbool false), ("message", Jv.jstr "ok"),
            ("data", Jv.jobj [("transaction_id", Jv.jstr "T1")])]⟩
      = ⟨200, Jv.jobj [("isError", Jv.jbool false), ("message", Jv.jstr "ok"),
          ("data", Jv.jobj [("transaction_id", Jv.jstr "T1")])],
          some [("from_payer", "0971234567"), ("amount", "50"), ("auth_id", "A"),
            ("webhook_url", "")]⟩ :=
  C7_success_passthrough (some "A") none "0971234567" "50.00" (mkRat 50 1)
    ⟨200, some "application/json",
      Jv.jobj [("isError", Jv.jbool false), ("message", Jv.jstr "ok"),
        ("data", Jv.jobj [("transaction_id", Jv.jstr "T1")])]⟩
    (Jv.jobj [("transaction_id", Jv.jstr "T1")])
    (by decide) (by decide) (by decide) rfl (by decide) rfl rfl rfl rfl rfl
    (by intro h; cases h) (by intro h; cases h)

/-- C10: a valid create request whose provider response is a success (JSON,
no truthy error flag, 2xx status) but lacks a `data` property is answered
with HTTP 500 and the internal-error envelope, not a success envelope: the
handler dereferences `data.data.transaction_id`, which throws. -/
theorem C10_missingData_internalError (authId env : Option String) (fp am : String)
    (q : Rat) (resp : ProviderResponse) (hfp : fp ≠ "") (ham : am ≠ "")
    (h10 : isTenDigits fp = true) (hp : parseFloat am = some q) (hq : 0 < q)
    (hauth : optTruthy authId = true) (hct : jsonCT resp.contentType = true)
    (herr : truthy (getField resp.body "isError") = false) (hok : respOk resp = true)
    (hd : getField resp.body "data" = Jv.jundefined) :
    (createHandler authId env (some fp) (some am) resp).status = 500 ∧
    getField (createHandler authId env (some fp) (some am) resp).body "isError"
      = Jv.jbool true ∧
    getField (createHandler authId env (some fp) (some am) resp).body "message"
      = Jv.jstr "Internal server error" := by
  cases hnn : isNullJv resp.body with
  | true =>
    rw [create_nullBody authId env fp am q resp hfp ham h10 hp hq hauth hct hnn]
    exact ⟨rfl, getField_catchBody_isError env _, getField_catchBody_message env _⟩
  | false =>
    rw [create_noData authId env fp am q resp hfp ham h10 hp hq hauth hct hnn herr hok hd]
    exact ⟨rfl, getField_catchBody_isError env _, getField_catchBody_message env _⟩

/-- C10 witness: a success response whose body has a message but no `data`
property produces the internal-error envelope. -/
theorem C10_missingData_internalError_witness :
    (createHandler (some "A") none (some "0971234567") (some "50.00")
        ⟨200, some "application/json", Jv.jobj [("message", Jv.jstr "ok")]⟩).status = 500 ∧
    getField (createHandler (some "A") none (some "0971234567") (some "50.00")
        ⟨200, some "application/json", Jv.jobj [("message", Jv.jstr "ok")]⟩).body "isError"
      = Jv.jbool true ∧
    getField (createHandler (some "A") none (some "0971234567") (some "50.00")
        ⟨200, some "application/json", Jv.jobj [("message", Jv.jstr "ok")]⟩).body "message"
      = Jv.jstr "Internal server error" :=
  C10_missingData_internalError (some "A") none "0971234567" "50.00" (mkRat 50 1)
    ⟨200, some "application/json", Jv.jobj [("message", Jv.jstr "ok")]⟩
    (by decide) (by decide) (by decide) rfl (by decide) rfl rfl rfl rfl rfl

/-- C3 counterexample: for the spec scenario input `amount = "50.00"` the
outbound form carries `amount = "50"` - `parseFloat(amount).toString()`, the
default number-to-string conversion - not the fixed-precision string
`"50.00"` the claim describes. -/
theorem C3_claim_counterexample :
    (createHandler (some "A") none (some "0971234567") (some "50.00")
        ⟨200, some "application/json",
          Jv.jobj [("isError", Jv.jbool false), ("message", Jv.jstr "ok"),
            ("data", Jv.jobj [("transaction_id", Jv.jstr "T1")])]⟩).sentForm
      = some [("from_payer", "0971234567"), ("amount", "50"), ("auth_id", "A"),
          ("webhook_url", "")] ∧
    ("50" : String) ≠ "50.00" :=
  ⟨rfl, by decide⟩

/-- C3 (amended): for every valid InitiatePayment request that reaches the
provider call, the outbound form payload is exactly `from_payer`, the parsed
amount rendered by the number's default string conversion (shortest decimal,
trailing fractional zeros dropped - so `"50.00"` is forwarded as `"50"`),
`auth_id`, and an empty `webhook_url`, whatever the provider then answers. -/
theorem C3_formPayload (authId env : Option String) (fp am : String) (q : Rat)
    (resp : ProviderResponse) (hfp : fp ≠ "") (ham : am ≠ "")
    (h10 : isTenDigits fp = true) (hp : parseFloat am = some q) (hq : 0 < q)
    (hauth : optTruthy authId = true) :
    (createHandler authId env (some fp) (some am) resp).sentForm
      = some [("from_payer", fp), ("amount", numToString q), ("auth_id", authId.getD ""),
          ("webhook_url", "")] := by
  cases hct : jsonCT resp.contentType with
  | false =>
    rw [create_nonJson authId env fp am q resp hfp ham h10 hp hq hauth hct]
    rfl
  | true =>
    cases hnn : isNullJv resp.body with
    | true =>
      rw [create_nullBody authId env fp am q resp hfp ham h10 hp hq hauth hct hnn]
      rfl
    | false =>
      cases herr : truthy (getField resp.body "isError") || !respOk resp with
      | true =>
        rw [create_providerError authId env fp am q resp hfp ham h10 hp hq hauth hct
          hnn herr]
        rfl
      | false =>
        have herr1 : truthy (getField resp.body "isError") = false := by
          cases h : truthy (getField resp.body "isError") <;> simp [h] at herr ⊢
        have hok : respOk resp = true := by
          cases h : respOk resp <;> simp [h] at herr ⊢
        cases hd : getField resp.body "data" with
        | jundefined =>
          rw [create_noData authId env fp am q resp hfp ham h10 hp hq hauth hct hnn
            herr1 hok hd]
          rfl
        | jnull =>
          rw [create_dataNull authId env fp am q resp hfp ham h10 hp hq hauth hct hnn
            herr1 hok hd]
          rfl
        | jbool b =>
          rw [create_success authId env fp am q resp (Jv.jbool b) hfp ham h10 hp hq hauth
            hct herr1 hok hd (fun h => Jv.noConfusion h) (fun h => Jv.noConfusion h)]
          rfl
        | jnum r =>
          rw [create_success authId env fp am q resp (Jv.jnum r) hfp ham h10 hp hq hauth
            hct herr1 hok hd (fun h => Jv.noConfusion h) (fun h => Jv.noConfusion h)]
          rfl
        | jstr s =>
          rw [create_success authId env fp am q resp (Jv.jstr s) hfp ham h10 hp hq hauth
            hct herr1 hok hd (fun h => Jv.noConfusion h) (fun h => Jv.noConfusion h)]
          rfl
        | jobj fs =>
          rw [create_success authId env fp am q resp (Jv.jobj fs) hfp ham h10 hp hq hauth
            hct herr1 hok hd (fun h => Jv.noConfusion h) (fun h => Jv.noConfusion h)]
          rfl

/-- C3 witness: the valid spec-scenario input produces the payload with
`amount = "50"`, `auth_id`, and empty `webhook_url`. -/
theorem C3_formPayload_witness :
    (createHandler (some "A") none (some "0971234567") (some "50.00")
        ⟨200, some "text/html", Jv.jobj []⟩).sentForm
      = some [("from_payer", "0971234567"), ("amount", "50"), ("auth_id", "A"),
          ("webhook_url", "")] :=
  C3_formPayload (some "A") none "0971234567" "50.00" (mkRat 50 1)
    ⟨200, some "text/html", Jv.jobj []⟩ (by decide) (by decide) (by decide) rfl
    (by decide) rfl
